import Mathlib

/-!
Verification of the ProtocolLens protocol plugin runtime and mock identity
provider engine.  The definitions below are a shallow embedding of the Go
sources: `internal/plugin/lifecycle.go` (plugin lifecycle manager and the
mockidp claim / PKCE helpers) and `internal/protocols/oauth2/handlers.go`
(the OAuth2 and OIDC HTTP handlers).  Parts of the Mock IdP core whose
implementation files are not in the source tree (the client/user/code/token
stores and the signing service) are modelled from the specification and are
marked as such in their doc comments.
-/

set_option maxRecDepth 40000

/-! ## SHA-256 over byte lists (bytes and 32-bit words are `Nat` mod 2^32) -/

/-- Truncate to a 32-bit word. -/
def w32 (x : Nat) : Nat := x % 4294967296

/-- Right rotation of a 32-bit word. -/
def rotr32 (n x : Nat) : Nat := w32 ((x >>> n) ||| (x <<< (32 - n)))

/-- SHA-256 small sigma 0. -/
def ssig0 (x : Nat) : Nat := (rotr32 7 x) ^^^ (rotr32 18 x) ^^^ (x >>> 3)

/-- SHA-256 small sigma 1. -/
def ssig1 (x : Nat) : Nat := (rotr32 17 x) ^^^ (rotr32 19 x) ^^^ (x >>> 10)

/-- SHA-256 big sigma 0. -/
def bsig0 (x : Nat) : Nat := (rotr32 2 x) ^^^ (rotr32 13 x) ^^^ (rotr32 22 x)

/-- SHA-256 big sigma 1. -/
def bsig1 (x : Nat) : Nat := (rotr32 6 x) ^^^ (rotr32 11 x) ^^^ (rotr32 25 x)

/-- SHA-256 choice function. -/
def shaCh (x y z : Nat) : Nat := (x &&& y) ^^^ ((x ^^^ 4294967295) &&& z)

/-- SHA-256 majority function. -/
def shaMaj (x y z : Nat) : Nat := (x &&& y) ^^^ (x &&& z) ^^^ (y &&& z)

/-- The 64 SHA-256 round constants (decimal). -/
def shaK : List Nat :=
  [1116352408, 1899447441, 3049323471, 3921009573, 961987163, 1508970993,
   2453635748, 2870763221, 3624381080, 310598401, 607225278, 1426881987,
   1925078388, 2162078206, 2614888103, 3248222580, 3835390401, 4022224774,
   264347078, 604807628, 770255983, 1249150122, 1555081692, 1996064986,
   2554220882, 2821834349, 2952996808, 3210313671, 3336571891, 3584528711,
   113926993, 338241895, 666307205, 773529912, 1294757372, 1396182291,
   1695183700, 1986661051, 2177026350, 2456956037, 2730485921, 2820302411,
   3259730800, 3345764771, 3516065817, 3600352804, 4094571909, 275423344,
   430227734, 506948616, 659060556, 883997877, 958139571, 1322822218,
   1537002063, 1747873779, 1955562222, 2024104815, 2227730452, 2361852424,
   2428436474, 2756734187, 3204031479, 3329325298]

/-- SHA-256 initial hash value (decimal). -/
def shaH0 : List Nat :=
  [1779033703, 3144134277, 1013904242, 2773480762,
   1359893119, 2600822924, 528734635, 1541459225]

/-- Extend a 16-word block to the 64-word message schedule. -/
def shaSchedule (b : List Nat) : List Nat :=
  (List.range 48).foldl
    (fun w i =>
      w ++ [w32 (ssig1 (w.getD (i + 14) 0) + w.getD (i + 9) 0 + ssig0 (w.getD (i + 1) 0) + w.getD i 0)])
    b

/-- One SHA-256 compression round on the 8-word working state. -/
def shaRound (st : List Nat) (wi ki : Nat) : List Nat :=
  let a := st.getD 0 0
  let b := st.getD 1 0
  let c := st.getD 2 0
  let d := st.getD 3 0
  let e := st.getD 4 0
  let f := st.getD 5 0
  let g := st.getD 6 0
  let h := st.getD 7 0
  let t1 := w32 (h + bsig1 e + shaCh e f g + ki + wi)
  let t2 := w32 (bsig0 a + shaMaj a b c)
  [w32 (t1 + t2), a, b, c, w32 (d + t1), e, f, g]

/-- Process one 64-byte block given as 16 big-endian words. -/
def shaBlock (hs : List Nat) (block : List Nat) : List Nat :=
  let w := shaSchedule block
  let st := (List.range 64).foldl (fun s i => shaRound s (w.getD i 0) (shaK.getD i 0)) hs
  (List.range 8).map (fun i => w32 (hs.getD i 0 + st.getD i 0))

/-- Big-endian 8-byte encoding of a number. -/
def be64 (n : Nat) : List Nat :=
  [(n >>> 56) % 256, (n >>> 48) % 256, (n >>> 40) % 256, (n >>> 32) % 256,
   (n >>> 24) % 256, (n >>> 16) % 256, (n >>> 8) % 256, n % 256]

/-- SHA-256 padding: append 0x80, zeros to 56 mod 64, then the bit length. -/
def shaPad (msg : List Nat) : List Nat :=
  let len := msg.length
  let k := (119 - len % 64) % 64
  msg ++ [128] ++ List.replicate k 0 ++ be64 (8 * len)

/-- Parse 64 bytes (at offset `off` of `bytes`) into 16 big-endian words. -/
def shaWords (bytes : List Nat) (off : Nat) : List Nat :=
  (List.range 16).map (fun j =>
    (bytes.getD (off + 4 * j) 0) <<< 24 ||| (bytes.getD (off + 4 * j + 1) 0) <<< 16 |||
    (bytes.getD (off + 4 * j + 2) 0) <<< 8 ||| bytes.getD (off + 4 * j + 3) 0)

/-- SHA-256 of a byte list, as a list of 32 bytes. -/
def sha256 (msg : List Nat) : List Nat :=
  let padded := shaPad msg
  let nblocks := padded.length / 64
  let hs := (List.range nblocks).foldl (fun hs i => shaBlock hs (shaWords padded (64 * i))) shaH0
  hs.foldr (fun h acc => [(h >>> 24) % 256, (h >>> 16) % 256, (h >>> 8) % 256, h % 256] ++ acc) []

/-! ## UTF-8 and base64url (RawURLEncoding, i.e. no padding) -/

/-- UTF-8 encoding of one character (by Unicode scalar value). -/
def utf8Char (c : Char) : List Nat :=
  let n := c.toNat
  if n < 128 then [n]
  else if n < 2048 then [192 + n / 64, 128 + n % 64]
  else if n < 65536 then [224 + n / 4096, 128 + (n / 64) % 64, 128 + n % 64]
  else [240 + n / 262144, 128 + (n / 4096) % 64, 128 + (n / 64) % 64, 128 + n % 64]

/-- UTF-8 bytes of a string, mirroring Go's `[]byte(s)`. -/
def utf8Bytes (s : String) : List Nat := s.data.flatMap utf8Char

/-- The base64url alphabet. -/
def b64Char (n : Nat) : Char :=
  "ABCDEFGHIJKLMNOPQRSTUVWXYZabcdefghijklmnopqrstuvwxyz0123456789-_".data.getD n 'A'

/-- base64url encoding without padding, mirroring Go's `base64.RawURLEncoding`. -/
def b64RawURLChars : List Nat → List Char
  | b0 :: b1 :: b2 :: rest =>
    let v := b0 <<< 16 ||| b1 <<< 8 ||| b2
    b64Char ((v >>> 18) &&& 63) :: b64Char ((v >>> 12) &&& 63) ::
      b64Char ((v >>> 6) &&& 63) :: b64Char (v &&& 63) :: b64RawURLChars rest
  | [b0, b1] =>
    [b64Char (b0 >>> 2), b64Char (((b0 &&& 3) <<< 4) ||| (b1 >>> 4)), b64Char ((b1 &&& 15) <<< 2)]
  | [b0] => [b64Char (b0 >>> 2), b64Char ((b0 &&& 3) <<< 4)]
  | [] => []

/-- base64url (no padding) of a byte list, as a string. -/
def b64RawURL (bytes : List Nat) : String := String.mk (b64RawURLChars bytes)

/-- SHA-256 of a string's UTF-8 bytes, base64url-encoded without padding:
the challenge computation used by `validatePKCE` and `GeneratePKCE`. -/
def sha256B64 (s : String) : String := b64RawURL (sha256 (utf8Bytes s))

/-! ## `validatePKCE` (from `lifecycle.go`, mockidp part) -/

/-- `validatePKCE` from the source: an empty verifier fails; `S256` (and any
unspecified method, which defaults to S256) compares the base64url-encoded
SHA-256 of the verifier with the challenge; `plain` compares directly. -/
def validatePKCE (verifier challenge method : String) : Bool :=
  if verifier = "" then false
  else if method = "S256" then sha256B64 verifier == challenge
  else if method = "plain" then verifier == challenge
  else sha256B64 verifier == challenge

/-! ## Data model

Entities of the Mock IdP core.  Claim values (`CVal`) stand in for Go's
`interface{}` values inside claims maps: strings, JSON numbers, booleans
and role lists are the shapes the code inspects. -/

/-- A claims-map value (Go `interface{}` as used by the handlers). -/
inductive CVal where
  | str (s : String)
  | int (n : Int)
  | bool (b : Bool)
  | strs (l : List String)
deriving DecidableEq, Repr

/-- A demo principal (spec §3): id, email, opaque password, name, roles,
custom claims, creation time (Unix seconds). -/
structure User where
  id : String
  email : String
  password : String
  name : String
  roles : List String
  claims : List (String × CVal)
  createdAt : Int
deriving DecidableEq, Repr

/-- A registered relying party (spec §3): id, name, public flag, secret,
registered redirect URIs and allowed grant types. -/
structure Client where
  id : String
  name : String
  public : Bool
  secret : String
  redirectURIs : List String
  grantTypes : List String
deriving DecidableEq, Repr

/-- A single-use authorization code record (spec §3). -/
structure AuthCode where
  code : String
  clientID : String
  userID : String
  redirectURI : String
  scope : String
  state : String
  nonce : String
  codeChallenge : String
  codeChallengeMethod : String
  expiresAt : Int
  consumed : Bool
deriving DecidableEq, Repr

/-- A stored refresh-token record (spec §3). -/
structure RefreshRec where
  token : String
  clientID : String
  userID : String
  scope : String
  expiresAt : Int
  revoked : Bool
deriving DecidableEq, Repr

/-- The Mock IdP state: user/client registries, authorization-code and
refresh-token stores, the current time (Unix seconds), and a counter
standing in for the opaque high-entropy code generator. -/
structure MockIdP where
  users : List User
  clients : List Client
  authCodes : List AuthCode
  refreshTokens : List RefreshRec
  now : Int
  codeSeq : Nat
deriving DecidableEq, Repr

/-- A claims map: Go `map[string]interface{}`. -/
def ClaimsMap : Type := String → Option CVal

/-- The empty claims map. -/
def emptyClaims : ClaimsMap := fun _ => none

/-- Insert (or overwrite) one key of a claims map. -/
def insertClaim (m : ClaimsMap) (k : String) (v : CVal) : ClaimsMap :=
  fun q => if q = k then some v else m q

/-! ## Mock IdP core operations

Operations whose Go implementation files are not in the source tree are
modelled from the specification (§4.2) and say so in their doc comment;
`UserClaims` and `validatePKCE` above are translated from the source. -/

/-- Modelled from the spec: `GetUser` of the Mock IdP store (store file not
in src); plain registry lookup by user id. -/
def MockIdP.getUser (idp : MockIdP) (id : String) : Option User :=
  idp.users.find? (fun u => u.id == id)

/-- Modelled from the spec: `GetClient(id) -> Client | NotFound` (§4.2);
plain registry lookup by client id. -/
def MockIdP.getClient (idp : MockIdP) (id : String) : Option Client :=
  idp.clients.find? (fun c => c.id == id)

/-- Modelled from the spec: `ValidateClient(id, secret) -> Client |
InvalidClient` (§4.2): secret required for non-public clients, exact match. -/
def MockIdP.validateClient (idp : MockIdP) (id secret : String) : Except String Client :=
  match idp.getClient id with
  | none => Except.error "invalid client"
  | some c =>
    if c.public then Except.ok c
    else if secret = c.secret then Except.ok c
    else Except.error "invalid client"

/-- Modelled from the spec: `ValidateCredentials(email, password) -> User |
InvalidCredentials` (§4.2): exact match against the stored record. -/
def MockIdP.validateCredentials (idp : MockIdP) (email password : String) :
    Except String User :=
  match idp.users.find? (fun u => u.email == email) with
  | none => Except.error "invalid credentials"
  | some u =>
    if u.password = password then Except.ok u
    else Except.error "invalid credentials"

/-- Modelled from the spec: `ValidateRedirectURI(clientID, uri) -> bool`
(§4.2): exact string match against the client's registered set. -/
def MockIdP.validateRedirectURI (idp : MockIdP) (clientID uri : String) : Bool :=
  match idp.getClient clientID with
  | none => false
  | some c => c.redirectURIs.contains uri

/-- Modelled from the spec: `CreateAuthorizationCode` (§4.2): generates an
opaque code (the generator is abstracted as a counter), stores the record
with a short expiry (10 minutes), not yet consumed. -/
def MockIdP.createAuthCode (idp : MockIdP)
    (clientID userID redirectURI scope state nonce codeChallenge codeChallengeMethod : String) :
    Except String (AuthCode × MockIdP) :=
  let ac : AuthCode :=
    { code := "code-" ++ toString idp.codeSeq, clientID, userID, redirectURI, scope, state,
      nonce, codeChallenge, codeChallengeMethod, expiresAt := idp.now + 600, consumed := false }
  Except.ok (ac, { idp with authCodes := ac :: idp.authCodes, codeSeq := idp.codeSeq + 1 })

/-- Modelled from the spec: `ValidateAuthorizationCode(code, clientID,
redirectURI, codeVerifier)` (§4.2): fails if the code is unknown, already
consumed, expired, on client-id or redirect-URI mismatch, or if a recorded
PKCE challenge does not verify (via `validatePKCE` from the source);
success marks the code consumed in the returned store. -/
def MockIdP.validateAuthCode (idp : MockIdP) (code clientID redirectURI codeVerifier : String) :
    Except String (AuthCode × MockIdP) :=
  match idp.authCodes.find? (fun c => c.code == code) with
  | none => Except.error "invalid authorization code"
  | some ac =>
    if ac.consumed then Except.error "authorization code already used"
    else if ac.expiresAt < idp.now then Except.error "authorization code expired"
    else if ac.clientID ≠ clientID then Except.error "client mismatch"
    else if ac.redirectURI ≠ redirectURI then Except.error "redirect uri mismatch"
    else if ac.codeChallenge ≠ "" ∧ validatePKCE codeVerifier ac.codeChallenge ac.codeChallengeMethod = false then
      Except.error "pkce validation failed"
    else
      let consumedCodes :=
        idp.authCodes.map (fun c => if c.code == code then { c with consumed := true } else c)
      Except.ok (ac, { idp with authCodes := consumedCodes })

/-- Modelled from the spec: `StoreRefreshToken` (§4.2): persists a fresh,
unrevoked refresh-token record bound to the issuing client. -/
def MockIdP.storeRefreshToken (idp : MockIdP) (token clientID userID scope : String)
    (expiresAt : Int) : MockIdP :=
  { idp with refreshTokens :=
      { token, clientID, userID, scope, expiresAt, revoked := false } :: idp.refreshTokens }

/-- Modelled from the spec: `ValidateRefreshToken(token, clientID)` (§4.2):
fails on not-found, prior revocation, expiry, or client mismatch; reads only. -/
def MockIdP.validateRefreshToken (idp : MockIdP) (token clientID : String) :
    Except String RefreshRec :=
  match idp.refreshTokens.find? (fun rt => rt.token == token) with
  | none => Except.error "invalid refresh token"
  | some rt =>
    if rt.revoked then Except.error "refresh token revoked"
    else if rt.expiresAt < idp.now then Except.error "refresh token expired"
    else if rt.clientID ≠ clientID then Except.error "client mismatch"
    else Except.ok rt

/-- Modelled from the spec: `RevokeRefreshToken(token)` (§4.2): marks the
matching record revoked; unknown tokens are a no-op. -/
def MockIdP.revokeRefreshToken (idp : MockIdP) (token : String) : MockIdP :=
  { idp with refreshTokens :=
      idp.refreshTokens.map (fun rt => if rt.token == token then { rt with revoked := true } else rt) }

/-! ## `UserClaims` (from `lifecycle.go`, mockidp part) -/

/-- One iteration of the scope switch in `UserClaims`: `profile` adds
name/preferred_username/updated_at, `email` adds email and
email_verified=true, `roles` adds the role list. -/
def scopeStep (user : User) (m : ClaimsMap) (scope : String) : ClaimsMap :=
  if scope = "profile" then
    insertClaim (insertClaim (insertClaim m "name" (CVal.str user.name))
      "preferred_username" (CVal.str user.id)) "updated_at" (CVal.int user.createdAt)
  else if scope = "email" then
    insertClaim (insertClaim m "email" (CVal.str user.email)) "email_verified" (CVal.bool true)
  else if scope = "roles" then insertClaim m "roles" (CVal.strs user.roles)
  else m

/-- `UserClaims(userID, scopes)` from the source: `nil` for a missing user;
otherwise starts from `sub`, folds the scope switch over the scopes, then
merges the user's custom claims last. -/
def MockIdP.userClaims (idp : MockIdP) (userID : String) (scopes : List String) :
    Option ClaimsMap :=
  match idp.getUser userID with
  | none => none
  | some user =>
    let m := insertClaim emptyClaims "sub" (CVal.str user.id)
    let m := scopes.foldl (scopeStep user) m
    some (user.claims.foldl (fun m kv => insertClaim m kv.1 kv.2) m)

/-! ## Signing service contract and response shapes

The signing service is an external collaborator (spec §1, §6); it is
represented by its contract: token-creating functions and `Verify`
(`ValidateToken`), each fallible.  Token values are opaque strings. -/

/-- The signing / JWT service contract (spec §6): `CreateAccessToken(sub,
aud, scope, lifetime, claims)`, `CreateRefreshToken(sub, aud, scope,
lifetime)`, `CreateIDToken(sub, aud, nonce, now, lifetime, claims)`, and
`ValidateToken(token) -> claims | error`.  Lifetimes are in seconds; a
claims argument of `none` mirrors a Go `nil` map. -/
structure JWTService where
  createAccessToken : String → String → String → Int → Option ClaimsMap → Except String String
  createRefreshToken : String → String → String → Int → Except String String
  createIDToken : String → String → String → Int → Int → Option ClaimsMap → Except String String
  validateToken : String → Except String ClaimsMap

deriving instance DecidableEq for Except

/-- The token-endpoint success JSON body (`models.TokenResponse`): optional
members model Go's `omitempty` string fields. -/
structure TokenResponse where
  accessToken : String
  tokenType : String
  expiresIn : Int
  refreshToken : Option String
  idToken : Option String
  scope : String
deriving DecidableEq, Repr

/-- The introspection JSON body (`models.IntrospectionResponse`); absent
fields keep their Go zero values. -/
structure IntroResponse where
  active : Bool
  tokenType : String
  scope : String
  sub : String
  username : String
  clientID : String
  exp : Int
  iat : Int
  iss : String
  jti : String
deriving DecidableEq, Repr

/-- The `{active:false}` introspection body (all other fields zero). -/
def inactiveIntro : IntroResponse :=
  { active := false, tokenType := "", scope := "", sub := "", username := "",
    clientID := "", exp := 0, iat := 0, iss := "", jti := "" }

/-- An HTTP response as observable from the handlers: a protocol error JSON
body (`writeOAuth2Error` always uses status 400 and includes `state` when
nonempty; `writeOIDCError` passes an explicit status and no state), a token
JSON body, an introspection JSON body, a redirect with a Location URL, a
rendered login page (tracking whether the error banner was inserted), or a
bare 200. -/
inductive HResp where
  | err (status : Nat) (error : String) (desc : String) (state : String)
  | tokens (status : Nat) (t : TokenResponse)
  | intro (status : Nat) (r : IntroResponse)
  | redirect (status : Nat) (location : String)
  | loginPage (withError : Bool)
  | ok200
deriving DecidableEq, Repr

/-- A token-endpoint request's form fields plus HTTP Basic credentials
(Go's `r.BasicAuth()` yields empty strings when the header is absent). -/
structure TokenReq where
  grantType : String
  code : String
  redirectURI : String
  clientID : String
  clientSecret : String
  codeVerifier : String
  refreshToken : String
  scope : String
  token : String
  tokenTypeHint : String
  basicUser : String
  basicPass : String
deriving DecidableEq, Repr

/-- An authorization-submit (POST) request's form fields. -/
structure AuthSubmitReq where
  email : String
  password : String
  clientID : String
  redirectURI : String
  scope : String
  state : String
  codeChallenge : String
  codeChallengeMethod : String
  nonce : String
deriving DecidableEq, Repr

/-- Client credentials as the token-grant handlers resolve them: the form
fields, falling back to Basic auth when the form client_id is empty. -/
def formThenBasic (r : TokenReq) : String × String :=
  if r.clientID = "" then (r.basicUser, r.basicPass) else (r.clientID, r.clientSecret)

/-- Client credentials as the introspection/revocation handlers resolve
them: Basic auth first, falling back to the form fields. -/
def basicThenForm (r : TokenReq) : String × String :=
  if r.basicUser = "" then (r.clientID, r.clientSecret) else (r.basicUser, r.basicPass)

/-- Whether an `Except` is a success. -/
def Except.succeeded {ε α : Type} : Except ε α → Bool
  | Except.ok _ => true
  | Except.error _ => false

/-- Helper for `splitScope`: accumulates the current field (reversed). -/
def splitScopeAux : List Char → List Char → List String
  | [], acc => [String.mk acc.reverse]
  | c :: rest, acc =>
    if c = ' ' then String.mk acc.reverse :: splitScopeAux rest []
    else splitScopeAux rest (c :: acc)

/-- Go's `strings.Split(s, " ")`: split at every space, keeping empty
fields; the empty string yields `[""]`. -/
def splitScope (s : String) : List String := splitScopeAux s.data []

/-! ## OAuth2 plugin handlers (from `handlers.go`, oauth2 part) -/

/-- The redirect URL built by `handleAuthorizeSubmit`: models
`url.Parse(redirectURI)` followed by `Query().Set` and `Encode()` for a
redirect URI without an existing query or fragment (`Encode` sorts keys,
and "code" sorts before "state"). -/
def buildRedirectURL (uri code state : String) : String :=
  uri ++ "?code=" ++ code ++ (if state = "" then "" else "&state=" ++ state)

/-- `handleAuthorizeSubmit` (oauth2): validates credentials (re-rendering
the login page with an error banner on failure), creates an authorization
code, and redirects to `redirect_uri` with `code` and echoed `state`. -/
def oauth2HandleAuthorizeSubmit (idp : MockIdP) (r : AuthSubmitReq) : HResp × MockIdP :=
  match idp.validateCredentials r.email r.password with
  | Except.error _ => (HResp.loginPage true, idp)
  | Except.ok user =>
    match idp.createAuthCode r.clientID user.id r.redirectURI r.scope r.state r.nonce
        r.codeChallenge r.codeChallengeMethod with
    | Except.error _ =>
      (HResp.err 400 "server_error" "Failed to create authorization code" r.state, idp)
    | Except.ok (authCode, idp1) =>
      (HResp.redirect 302 (buildRedirectURL r.redirectURI authCode.code r.state), idp1)

/-- `issueTokens` (oauth2): user claims, access token (1 hour), refresh
token (7 days, persisted); the response never carries an ID token. -/
def oauth2IssueTokens (jwt : JWTService) (idp : MockIdP) (userID clientID scope nonce : String) :
    Except String (TokenResponse × MockIdP) :=
  let scopes := splitScope scope
  let userClaims := idp.userClaims userID scopes
  match jwt.createAccessToken userID clientID scope 3600 userClaims with
  | Except.error e => Except.error e
  | Except.ok accessToken =>
    match jwt.createRefreshToken userID clientID scope 604800 with
    | Except.error e => Except.error e
    | Except.ok refreshToken =>
      let idp1 := idp.storeRefreshToken refreshToken clientID userID scope (idp.now + 604800)
      let resp : TokenResponse := {
        accessToken,
        tokenType := "Bearer",
        expiresIn := 3600,
        refreshToken := some refreshToken,
        idToken := none,
        scope }
      Except.ok (resp, idp1)

/-- `handleAuthorizationCodeGrant` (oauth2): resolves client credentials,
authenticates non-public clients, validates (and consumes) the code, then
issues tokens; a code-validation failure surfaces as `invalid_grant`. -/
def oauth2HandleAuthCodeGrant (jwt : JWTService) (idp : MockIdP) (r : TokenReq) :
    HResp × MockIdP :=
  let creds := formThenBasic r
  match idp.getClient creds.1 with
  | none => (HResp.err 400 "invalid_client" "Unknown client" "", idp)
  | some client =>
    if !client.public && !(idp.validateClient creds.1 creds.2).succeeded then
      (HResp.err 400 "invalid_client" "Client authentication failed" "", idp)
    else
      match idp.validateAuthCode r.code creds.1 r.redirectURI r.codeVerifier with
      | Except.error e => (HResp.err 400 "invalid_grant" e "", idp)
      | Except.ok (authCode, idp1) =>
        match oauth2IssueTokens jwt idp1 authCode.userID creds.1 authCode.scope authCode.nonce with
        | Except.error _ => (HResp.err 400 "server_error" "Failed to issue tokens" "", idp1)
        | Except.ok (resp, idp2) => (HResp.tokens 200 resp, idp2)

/-- `handleRefreshTokenGrant` (oauth2): authenticates the client, validates
the presented refresh token (read-only), defaults the scope to the stored
one, and issues a fresh token set via `issueTokens`. -/
def oauth2HandleRefreshGrant (jwt : JWTService) (idp : MockIdP) (r : TokenReq) :
    HResp × MockIdP :=
  let creds := formThenBasic r
  match idp.getClient creds.1 with
  | none => (HResp.err 400 "invalid_client" "Unknown client" "", idp)
  | some client =>
    if !client.public && !(idp.validateClient creds.1 creds.2).succeeded then
      (HResp.err 400 "invalid_client" "Client authentication failed" "", idp)
    else
      match idp.validateRefreshToken r.refreshToken creds.1 with
      | Except.error e => (HResp.err 400 "invalid_grant" e "", idp)
      | Except.ok rt =>
        let scope := if r.scope = "" then rt.scope else r.scope
        match oauth2IssueTokens jwt idp rt.userID creds.1 scope "" with
        | Except.error _ => (HResp.err 400 "server_error" "Failed to issue tokens" "", idp)
        | Except.ok (resp, idp1) => (HResp.tokens 200 resp, idp1)

/-- `handleClientCredentialsGrant` (oauth2): authenticates the client,
checks the grant-type allowance, and issues only an access token whose
subject and audience are the client, with a `client_name` claim. -/
def oauth2HandleClientCredsGrant (jwt : JWTService) (idp : MockIdP) (r : TokenReq) :
    HResp × MockIdP :=
  let creds := formThenBasic r
  match idp.validateClient creds.1 creds.2 with
  | Except.error _ => (HResp.err 400 "invalid_client" "Client authentication failed" "", idp)
  | Except.ok client =>
    if !(client.grantTypes.contains "client_credentials") then
      (HResp.err 400 "unauthorized_client" "Client not authorized for this grant type" "", idp)
    else
      match jwt.createAccessToken creds.1 creds.1 r.scope 3600
          (some (insertClaim emptyClaims "client_name" (CVal.str client.name))) with
      | Except.error _ => (HResp.err 400 "server_error" "Failed to create access token" "", idp)
      | Except.ok accessToken =>
        let resp : TokenResponse := {
          accessToken,
          tokenType := "Bearer",
          expiresIn := 3600,
          refreshToken := none,
          idToken := none,
          scope := r.scope }
        (HResp.tokens 200 resp, idp)

/-- The introspection body built from validated claims: `handleIntrospect`
starts from `{Active: true, TokenType: "Bearer"}` and then performs one
type-checked conditional assignment per field (each `if v, ok :=
claims[k].(T); ok` of the source corresponds to one field's match here;
the assignments touch disjoint fields, with `sub` feeding both `sub` and
`username`). -/
def buildIntro (claims : ClaimsMap) : IntroResponse :=
  { active := true,
    tokenType := "Bearer",
    scope := match claims "scope" with | some (CVal.str s) => s | _ => "",
    sub := match claims "sub" with | some (CVal.str s) => s | _ => "",
    username := match claims "sub" with | some (CVal.str s) => s | _ => "",
    clientID := match claims "aud" with | some (CVal.str s) => s | _ => "",
    exp := match claims "exp" with | some (CVal.int n) => n | _ => 0,
    iat := match claims "iat" with | some (CVal.int n) => n | _ => 0,
    iss := match claims "iss" with | some (CVal.str s) => s | _ => "",
    jti := match claims "jti" with | some (CVal.str s) => s | _ => "" }

/-- `handleIntrospect` (oauth2): authenticates the requesting client, then
answers 200 with `{active:false}` for a token the signing service rejects,
or 200 with the extracted claims for a valid one. -/
def oauth2HandleIntrospect (jwt : JWTService) (idp : MockIdP) (r : TokenReq) :
    HResp × MockIdP :=
  let creds := basicThenForm r
  match idp.validateClient creds.1 creds.2 with
  | Except.error _ => (HResp.err 400 "invalid_client" "Client authentication required" "", idp)
  | Except.ok _ =>
    match jwt.validateToken r.token with
    | Except.error _ => (HResp.intro 200 inactiveIntro, idp)
    | Except.ok claims => (HResp.intro 200 (buildIntro claims), idp)

/-- `handleRevoke` (oauth2): authenticates the client, revokes the token in
the refresh store when the hint is `refresh_token` or empty, and answers a
bare 200 regardless of the token's validity. -/
def oauth2HandleRevoke (idp : MockIdP) (r : TokenReq) : HResp × MockIdP :=
  let creds := basicThenForm r
  match idp.getClient creds.1 with
  | none => (HResp.err 400 "invalid_client" "Unknown client" "", idp)
  | some client =>
    if !client.public && !(idp.validateClient creds.1 creds.2).succeeded then
      (HResp.err 400 "invalid_client" "Client authentication failed" "", idp)
    else
      let idp1 := if r.tokenTypeHint = "refresh_token" ∨ r.tokenTypeHint = "" then
        idp.revokeRefreshToken r.token else idp
      (HResp.ok200, idp1)

/-! ## OIDC plugin handlers (from `handlers.go`, oidc part) -/

/-- `handleAuthorizeSubmit` (oidc): re-validates the redirect URI against
the registered set before anything else, then validates credentials
(re-rendering the login page with an error banner on failure), creates an
authorization code, and redirects with `code` and echoed `state`. -/
def oidcHandleAuthorizeSubmit (idp : MockIdP) (r : AuthSubmitReq) : HResp × MockIdP :=
  if !(idp.validateRedirectURI r.clientID r.redirectURI) then
    (HResp.err 400 "invalid_request" "Invalid redirect_uri" "", idp)
  else
    match idp.validateCredentials r.email r.password with
    | Except.error _ => (HResp.loginPage true, idp)
    | Except.ok user =>
      match idp.createAuthCode r.clientID user.id r.redirectURI r.scope r.state r.nonce
          r.codeChallenge r.codeChallengeMethod with
      | Except.error _ =>
        (HResp.err 500 "server_error" "Failed to create authorization code" "", idp)
      | Except.ok (authCode, idp1) =>
        (HResp.redirect 302 (buildRedirectURL r.redirectURI authCode.code r.state), idp1)

/-- `issueOIDCTokens`: user claims, access token (1 hour), refresh token
(7 days, persisted), and — only when the scope includes `openid` — an ID
token created with the nonce recorded at code issuance. -/
def issueOIDCTokens (jwt : JWTService) (idp : MockIdP) (authCode : AuthCode) :
    Except String (TokenResponse × MockIdP) :=
  let scopes := splitScope authCode.scope
  let userClaims := idp.userClaims authCode.userID scopes
  match jwt.createAccessToken authCode.userID authCode.clientID authCode.scope 3600 userClaims with
  | Except.error e => Except.error e
  | Except.ok accessToken =>
    match jwt.createRefreshToken authCode.userID authCode.clientID authCode.scope 604800 with
    | Except.error e => Except.error e
    | Except.ok refreshToken =>
      let idp1 := idp.storeRefreshToken refreshToken authCode.clientID authCode.userID
        authCode.scope (idp.now + 604800)
      let response : TokenResponse := {
        accessToken,
        tokenType := "Bearer",
        expiresIn := 3600,
        refreshToken := some refreshToken,
        idToken := none,
        scope := authCode.scope }
      if scopes.contains "openid" then
        match jwt.createIDToken authCode.userID authCode.clientID authCode.nonce idp.now 3600
            userClaims with
        | Except.error e => Except.error e
        | Except.ok idToken => Except.ok ({ response with idToken := some idToken }, idp1)
      else Except.ok (response, idp1)

/-- `handleAuthorizationCodeGrant` (oidc): like the OAuth2 one but with
OIDC status codes, issuing tokens via `issueOIDCTokens`. -/
def oidcHandleAuthCodeGrant (jwt : JWTService) (idp : MockIdP) (r : TokenReq) :
    HResp × MockIdP :=
  let creds := formThenBasic r
  match idp.getClient creds.1 with
  | none => (HResp.err 401 "invalid_client" "Unknown client" "", idp)
  | some client =>
    if !client.public && !(idp.validateClient creds.1 creds.2).succeeded then
      (HResp.err 401 "invalid_client" "Client authentication failed" "", idp)
    else
      match idp.validateAuthCode r.code creds.1 r.redirectURI r.codeVerifier with
      | Except.error e => (HResp.err 400 "invalid_grant" e "", idp)
      | Except.ok (authCode, idp1) =>
        match issueOIDCTokens jwt idp1 authCode with
        | Except.error _ => (HResp.err 500 "server_error" "Failed to issue tokens" "", idp1)
        | Except.ok (resp, idp2) => (HResp.tokens 200 resp, idp2)

/-- `handleRefreshTokenGrant` (oidc): authenticates the client, validates
the presented refresh token (read-only), defaults the scope, creates and
stores a new refresh token (rotation), and re-issues an ID token (with an
empty nonce) when the scope includes `openid`; an ID-token signing failure
is swallowed and the response simply omits the ID token. -/
def oidcHandleRefreshGrant (jwt : JWTService) (idp : MockIdP) (r : TokenReq) :
    HResp × MockIdP :=
  let creds := formThenBasic r
  match idp.getClient creds.1 with
  | none => (HResp.err 401 "invalid_client" "Unknown client" "", idp)
  | some client =>
    if !client.public && !(idp.validateClient creds.1 creds.2).succeeded then
      (HResp.err 401 "invalid_client" "Client authentication failed" "", idp)
    else
      match idp.validateRefreshToken r.refreshToken creds.1 with
      | Except.error e => (HResp.err 400 "invalid_grant" e "", idp)
      | Except.ok rt =>
        let scope := if r.scope = "" then rt.scope else r.scope
        let scopes := splitScope scope
        let userClaims := idp.userClaims rt.userID scopes
        match jwt.createAccessToken rt.userID creds.1 scope 3600 userClaims with
        | Except.error _ =>
          (HResp.err 500 "server_error" "Failed to create access token" "", idp)
        | Except.ok accessToken =>
          match jwt.createRefreshToken rt.userID creds.1 scope 604800 with
          | Except.error _ =>
            (HResp.err 500 "server_error" "Failed to create refresh token" "", idp)
          | Except.ok newRefreshToken =>
            let idp1 := idp.storeRefreshToken newRefreshToken creds.1 rt.userID scope
              (idp.now + 604800)
            let response : TokenResponse := {
              accessToken,
              tokenType := "Bearer",
              expiresIn := 3600,
              refreshToken := some newRefreshToken,
              idToken := none,
              scope }
            if scopes.contains "openid" then
              match jwt.createIDToken rt.userID creds.1 "" idp.now 3600 userClaims with
              | Except.error _ => (HResp.tokens 200 response, idp1)
              | Except.ok idToken =>
                (HResp.tokens 200 { response with idToken := some idToken }, idp1)
            else (HResp.tokens 200 response, idp1)

/-! ## Plugin lifecycle manager (from `lifecycle.go`, plugin part) -/

/-- Plugin lifecycle states (`State` in the source). -/
inductive PState where
  | uninitializedS
  | initializingS
  | readyS
  | shuttingDownS
  | stoppedS
  | errorS
deriving DecidableEq, Repr

/-- The lifecycle manager's per-plugin state and error maps. -/
structure LifecycleMgr where
  states : String → Option PState
  errors : String → Option String

/-- `SetState`: records the state; any state other than `Error` clears a
recorded error for the plugin. -/
def setState (lm : LifecycleMgr) (id : String) (s : PState) : LifecycleMgr :=
  { states := fun k => if k = id then some s else lm.states k,
    errors := if s ≠ PState.errorS then (fun k => if k = id then none else lm.errors k)
      else lm.errors }

/-- `SetError`: records state `Error` together with the causing error. -/
def setPluginError (lm : LifecycleMgr) (id : String) (e : String) : LifecycleMgr :=
  { states := fun k => if k = id then some PState.errorS else lm.states k,
    errors := fun k => if k = id then some e else lm.errors k }

/-- The optional lifecycle hooks (`Hooks` in the source): the pre-init and
shutdown hooks may fail, the ready and error hooks cannot. -/
structure PluginHooks where
  onInit : Option (String → Option String)
  onReady : Bool
  onShutdown : Option (String → Option String)
  onError : Bool

/-- A protocol plugin under management, reduced to its observables: its id
and the outcome of its own initialization. -/
structure PluginDef where
  id : String
  initErr : Option String

/-- Observable steps of a managed initialization, for stating ordering. -/
inductive LifeEvent where
  | evInitializing
  | evPreInitHook
  | evPluginInit
  | evReadyHook
  | evErrorHook
deriving DecidableEq, Repr

/-- The part of `ManagedPlugin.Initialize` after the pre-init hook: the
plugin's own initialization (failure records the cause, fires the error
hook, and returns the error unwrapped), then `Ready` and the ready hook. -/
def mpInitBody (p : PluginDef) (hooks : Option PluginHooks) (lm1 : LifecycleMgr)
    (tr0 : List LifeEvent) : Option String × LifecycleMgr × List LifeEvent :=
  let id := p.id
  let tr1 := tr0 ++ [LifeEvent.evPluginInit]
  match p.initErr with
  | some e =>
    let lm2 := setPluginError lm1 id e
    let ranErr := (hooks.map (fun h => h.onError)).getD false
    (some e, lm2, tr1 ++ (if ranErr then [LifeEvent.evErrorHook] else []))
  | none =>
    let lm2 := setState lm1 id PState.readyS
    let ranReady := (hooks.map (fun h => h.onReady)).getD false
    (none, lm2, tr1 ++ (if ranReady then [LifeEvent.evReadyHook] else []))

/-- `ManagedPlugin.Initialize`: sets `Initializing`, runs the pre-init hook
if present (failure records the cause via `SetError` and returns a wrapped
error), then continues with `mpInitBody`.  Also returns the ordered trace
of steps taken. -/
def mpInit (p : PluginDef) (hooks : Option PluginHooks) (lm0 : LifecycleMgr) :
    Option String × LifecycleMgr × List LifeEvent :=
  let id := p.id
  let lm1 := setState lm0 id PState.initializingS
  let preHook := hooks.bind (fun h => h.onInit)
  let tr0 := [LifeEvent.evInitializing] ++
    (if preHook.isSome then [LifeEvent.evPreInitHook] else [])
  match preHook with
  | some f =>
    match f id with
    | some e => (some ("pre-init hook failed: " ++ e), setPluginError lm1 id e, tr0)
    | none => mpInitBody p hooks lm1 tr0
  | none => mpInitBody p hooks lm1 tr0

/-! ## Demo fixtures (used by witnesses and counterexamples) -/

/-- The demo confidential client, after `GetDemoClientPresets`. -/
def demoClient : Client :=
  { id := "demo-app", name := "Demo Application (Confidential)", public := false,
    secret := "demo-secret", redirectURIs := ["https://app.example/cb"],
    grantTypes := ["authorization_code", "refresh_token"] }

/-- The demo public client, after `GetDemoClientPresets`. -/
def publicClient : Client :=
  { id := "public-app", name := "Public Application (SPA)", public := true,
    secret := "", redirectURIs := ["https://spa.example/cb"],
    grantTypes := ["authorization_code", "refresh_token"] }

/-- The demo machine client, after `GetDemoClientPresets`. -/
def machineClient : Client :=
  { id := "machine-client", name := "Machine-to-Machine Client", public := false,
    secret := "machine-secret", grantTypes := ["client_credentials"], redirectURIs := [] }

/-- The demo user alice, after `GetDemoUserPresets`. -/
def alice : User :=
  { id := "alice", email := "alice@example.com", password := "password123",
    name := "Alice", roles := ["user"], claims := [], createdAt := 1700000000 }

/-- A base demo IdP state. -/
def demoIdP : MockIdP :=
  { users := [alice], clients := [demoClient, publicClient, machineClient],
    authCodes := [], refreshTokens := [], now := 1700000100, codeSeq := 0 }

/-- The claims the demo signing service reports for its one valid token. -/
def demoTokenClaims : ClaimsMap :=
  insertClaim (insertClaim (insertClaim (insertClaim (insertClaim (insertClaim
    (insertClaim emptyClaims "scope" (CVal.str "openid profile"))
    "sub" (CVal.str "alice")) "aud" (CVal.str "demo-app")) "exp" (CVal.int 1700003700))
    "iat" (CVal.int 1700000100)) "iss" (CVal.str "protocol-lens")) "jti" (CVal.str "jti-1")

/-- A deterministic stand-in signing service for concrete evaluations. -/
def demoJWT : JWTService :=
  { createAccessToken := fun sub aud scope _ _ => Except.ok ("AT." ++ sub ++ "." ++ aud ++ "." ++ scope),
    createRefreshToken := fun sub aud scope _ => Except.ok ("RT." ++ sub ++ "." ++ aud ++ "." ++ scope),
    createIDToken := fun sub aud nonce _ _ _ => Except.ok ("IDT." ++ sub ++ "." ++ aud ++ "." ++ nonce),
    validateToken := fun t =>
      if t = "valid-token" then Except.ok demoTokenClaims
      else Except.error "invalid token" }

/-- An empty lifecycle manager. -/
def lmEmpty : LifecycleMgr := { states := fun _ => none, errors := fun _ => none }

/-! ## C3: PKCE verification -/

/-- The 43-character demo verifier used for the concrete mutation check. -/
def pkceDemoVerifier : String := "dBjftJeZ4CVP-mB92K27uhbUJU1p1r_wW1gFWFOEjXk"

/-- `pkceDemoVerifier` with its first character mutated. -/
def pkceMutVerifier : String := "eBjftJeZ4CVP-mB92K27uhbUJU1p1r_wW1gFWFOEjXk"

/-- C3 (counterexample): the claim's characterization of `method=plain`
("returns true iff verifier equals challenge") fails at the empty verifier:
with verifier = challenge = "" the two sides are equal yet `validatePKCE`
returns false, because an empty verifier always fails first. -/
theorem C3_plain_empty_counterexample :
    ¬ (validatePKCE "" "" "plain" = true ↔ ("" : String) = "") := by
  decide

/-- C3 (amended): for every nonempty verifier, `validatePKCE` with
`method=S256` — or any unrecognized method, which defaults to the S256
behavior — returns true iff the base64url encoding without padding of
SHA-256(verifier) equals the challenge exactly, and with `method=plain`
returns true iff verifier equals challenge; an empty verifier always fails;
consequently a one-character mutation of an accepted verifier makes the
S256 check fail whenever it changes the SHA-256 digest, as demonstrated
on a concrete 43-character verifier. -/
theorem C3_validatePKCE_characterization :
    (∀ v c, v ≠ "" → (validatePKCE v c "S256" = true ↔ sha256B64 v = c))
    ∧ (∀ v c m, v ≠ "" → m ≠ "S256" → m ≠ "plain" →
        (validatePKCE v c m = true ↔ sha256B64 v = c))
    ∧ (∀ v c, v ≠ "" → (validatePKCE v c "plain" = true ↔ v = c))
    ∧ (∀ c m, validatePKCE "" c m = false)
    ∧ (∀ v w c, validatePKCE v c "S256" = true → sha256B64 w ≠ sha256B64 v →
        validatePKCE w c "S256" = false)
    ∧ (validatePKCE pkceDemoVerifier (sha256B64 pkceDemoVerifier) "S256" = true
        ∧ validatePKCE pkceMutVerifier (sha256B64 pkceDemoVerifier) "S256" = false) := by
  refine ⟨?_, ?_, ?_, ?_, ?_, by decide, by decide⟩
  · intro v c hv
    simp [validatePKCE, hv]
  · intro v c m hv h1 h2
    simp [validatePKCE, hv, h1, h2]
  · intro v c hv
    simp [validatePKCE, hv]
  · intro c m
    simp [validatePKCE]
  · intro v w c hvc hne
    by_cases hw : w = ""
    · simp [validatePKCE, hw]
    · by_cases hv : v = ""
      · rw [hv] at hvc
        simp [validatePKCE] at hvc
      · rw [show validatePKCE v c "S256" = (sha256B64 v == c) by simp [validatePKCE, hv]] at hvc
        have hc : sha256B64 v = c := by simpa using hvc
        rw [show validatePKCE w c "S256" = (sha256B64 w == c) by simp [validatePKCE, hw]]
        rw [← hc]
        simpa using hne

/-- C3 (witness): the plain-method characterization applied at a concrete
nonempty verifier equal to its challenge. -/
theorem C3_witness : validatePKCE "verifier-xyz" "verifier-xyz" "plain" = true :=
  (C3_validatePKCE_characterization.2.2.1 "verifier-xyz" "verifier-xyz" (by decide)).mpr rfl

/-! ## C1: single-use authorization codes -/

/-- Marking the matching code consumed preserves `find?` on the code key:
the found record is the consumed version of the original. -/
theorem find?_map_markConsumed (code : String) (l : List AuthCode) (ac : AuthCode)
    (h : l.find? (fun c => c.code == code) = some ac) :
    (l.map (fun c => if c.code == code then { c with consumed := true } else c)).find?
      (fun c => c.code == code) = some { ac with consumed := true } := by
  induction l with
  | nil => simp at h
  | cons x xs ih =>
    by_cases hx : x.code = code
    · rw [List.find?_cons_of_pos _ (by simp [hx])] at h
      cases h
      simp only [List.map_cons]
      rw [if_pos (by simp [hx])]
      exact List.find?_cons_of_pos _ (by simp [hx])
    · rw [List.find?_cons_of_neg _ (by simp [hx])] at h
      simp only [List.map_cons]
      rw [if_neg (by simp [hx])]
      rw [List.find?_cons_of_neg _ (by simp [hx])]
      exact ih h

/-- C1: once `ValidateAuthorizationCode` succeeds on a code, every further
redemption attempt of the same code against the resulting store fails (the
code is consumed), and the OAuth2 token endpoint — for any request carrying
that code whose client resolves and authenticates — surfaces the failure as
an `invalid_grant` error response. -/
theorem C1_auth_code_single_use (idp : MockIdP) (code cid ruri ver : String)
    (ac : AuthCode) (idp1 : MockIdP)
    (h : idp.validateAuthCode code cid ruri ver = Except.ok (ac, idp1)) :
    (∀ cid2 ruri2 ver2, (idp1.validateAuthCode code cid2 ruri2 ver2).succeeded = false)
    ∧ (∀ (jwt : JWTService) (r : TokenReq) (client : Client),
        r.code = code →
        idp1.getClient (formThenBasic r).1 = some client →
        (client.public || (idp1.validateClient (formThenBasic r).1
          (formThenBasic r).2).succeeded) = true →
        ∃ d, (oauth2HandleAuthCodeGrant jwt idp1 r).1 = HResp.err 400 "invalid_grant" d "") := by
  unfold MockIdP.validateAuthCode at h
  cases hf : idp.authCodes.find? (fun c => c.code == code) with
  | none => rw [hf] at h; exact absurd h (by simp)
  | some ac0 =>
    rw [hf] at h
    dsimp only at h
    split_ifs at h with h1 h2 h3 h4 h5
    simp only [Except.ok.injEq, Prod.mk.injEq] at h
    obtain ⟨hac, hidp1⟩ := h
    have hfind1 : idp1.authCodes.find? (fun c => c.code == code) =
        some { ac0 with consumed := true } := by
      rw [← hidp1]
      exact find?_map_markConsumed code idp.authCodes ac0 hf
    have hfail : ∀ cid2 ruri2 ver2,
        (idp1.validateAuthCode code cid2 ruri2 ver2).succeeded = false := by
      intro cid2 ruri2 ver2
      unfold MockIdP.validateAuthCode
      rw [hfind1]
      simp [Except.succeeded]
    refine ⟨hfail, ?_⟩
    intro jwt r client hcode hclient hauth
    have hgate : (!client.public && !(idp1.validateClient (formThenBasic r).1
        (formThenBasic r).2).succeeded) = false := by
      cases hp : client.public with
      | true => simp
      | false =>
        rw [hp] at hauth
        simp only [Bool.false_or] at hauth
        simp [hauth]
    unfold oauth2HandleAuthCodeGrant
    dsimp only
    rw [hclient]
    dsimp only
    rw [if_neg (by rw [hgate]; exact Bool.false_ne_true)]
    rw [hcode]
    cases hv : idp1.validateAuthCode code (formThenBasic r).1 r.redirectURI r.codeVerifier with
    | error e => exact ⟨e, rfl⟩
    | ok p =>
      have := hfail (formThenBasic r).1 r.redirectURI r.codeVerifier
      rw [hv] at this
      simp [Except.succeeded] at this

/-- The stored demo authorization code used in the C1 witness. -/
def c1Code : AuthCode :=
  { code := "code-0", clientID := "public-app", userID := "alice",
    redirectURI := "https://spa.example/cb", scope := "openid", state := "", nonce := "",
    codeChallenge := "", codeChallengeMethod := "", expiresAt := 1700000700, consumed := false }

/-- A demo IdP state holding one fresh authorization code. -/
def c1IdP : MockIdP := { demoIdP with authCodes := [c1Code] }

/-- The demo IdP state after the first successful redemption. -/
def c1IdP1 : MockIdP := { demoIdP with authCodes := [{ c1Code with consumed := true }] }

/-- The token request presenting the already-redeemed demo code. -/
def c1Req : TokenReq :=
  { grantType := "authorization_code", code := "code-0",
    redirectURI := "https://spa.example/cb", clientID := "public-app", clientSecret := "",
    codeVerifier := "", refreshToken := "", scope := "", token := "", tokenTypeHint := "",
    basicUser := "", basicPass := "" }

/-- C1 (witness): a concrete first redemption succeeds, and the theorem
yields both the failure of the second redemption and the `invalid_grant`
token-endpoint response. -/
theorem C1_witness :
    (c1IdP1.validateAuthCode "code-0" "public-app" "https://spa.example/cb" "").succeeded = false
    ∧ ∃ d, (oauth2HandleAuthCodeGrant demoJWT c1IdP1 c1Req).1 =
        HResp.err 400 "invalid_grant" d "" := by
  have h := C1_auth_code_single_use c1IdP "code-0" "public-app" "https://spa.example/cb" ""
    c1Code c1IdP1 (by rfl)
  exact ⟨h.1 "public-app" "https://spa.example/cb" "",
    h.2 demoJWT c1Req publicClient rfl (by rfl) (by rfl)⟩

/-! ## C2: redirect-URI validation on authorization submit -/

/-- A POST submit with valid alice credentials but an unregistered
redirect URI. -/
def c2Req : AuthSubmitReq :=
  { email := "alice@example.com", password := "password123", clientID := "demo-app",
    redirectURI := "https://evil.example/cb", scope := "openid", state := "xyz",
    codeChallenge := "", codeChallengeMethod := "", nonce := "" }

/-- C2: at a concrete request whose redirect URI is not registered for the
client (so `ValidateRedirectURI` is false), the OAuth2 submit handler
nevertheless issues an HTTP 302 redirect to that URI — it never consults
`ValidateRedirectURI` — while the OIDC submit handler, as the claim
demands, rejects the same request with `invalid_request` before any
redirect. -/
theorem C2_open_redirect_eval :
    (oauth2HandleAuthorizeSubmit demoIdP c2Req).1 =
      HResp.redirect 302 "https://evil.example/cb?code=code-0&state=xyz"
    ∧ demoIdP.validateRedirectURI "demo-app" "https://evil.example/cb" = false
    ∧ (oidcHandleAuthorizeSubmit demoIdP c2Req).1 =
      HResp.err 400 "invalid_request" "Invalid redirect_uri" "" := by
  refine ⟨by decide, by decide, by decide⟩

/-! ## C4: ID token presence -/

/-- C4 (counterexample): a fully successful OAuth2 authorization-code token
exchange whose granted scope is exactly `openid` returns a response with no
`id_token` — `issueTokens` of the plain OAuth2 plugin never creates one —
refuting "the token response contains an id_token iff the granted scope
includes openid" for the OAuth2 token endpoint. -/
theorem C4_oauth2_no_id_token_counterexample :
    (oauth2HandleAuthCodeGrant demoJWT c1IdP c1Req).1 =
      HResp.tokens 200
        { accessToken := "AT.alice.public-app.openid", tokenType := "Bearer",
          expiresIn := 3600, refreshToken := some "RT.alice.public-app.openid",
          idToken := none, scope := "openid" }
    ∧ (splitScope "openid").contains "openid" = true := by
  refine ⟨by decide, by decide⟩

/-- C4 (amended): in the OIDC plugin's token issuance the response contains
an `id_token` iff the granted scope includes `openid`, and any present ID
token is the one the signing service created with the nonce recorded at
code issuance; the plain OAuth2 plugin's `issueTokens` never returns an ID
token. -/
theorem C4_id_token_iff_openid :
    (∀ (jwt : JWTService) (idp : MockIdP) (ac : AuthCode) (resp : TokenResponse)
        (idp1 : MockIdP),
      issueOIDCTokens jwt idp ac = Except.ok (resp, idp1) →
        (resp.idToken.isSome = (splitScope ac.scope).contains "openid"
        ∧ ∀ idt, resp.idToken = some idt →
            jwt.createIDToken ac.userID ac.clientID ac.nonce idp.now 3600
              (idp.userClaims ac.userID (splitScope ac.scope)) = Except.ok idt))
    ∧ (∀ (jwt : JWTService) (idp : MockIdP) (uid cid scope nonce : String)
        (resp : TokenResponse) (idp1 : MockIdP),
      oauth2IssueTokens jwt idp uid cid scope nonce = Except.ok (resp, idp1) →
        resp.idToken = none) := by
  constructor
  · intro jwt idp ac resp idp1 h
    unfold issueOIDCTokens at h
    dsimp only at h
    cases ha : jwt.createAccessToken ac.userID ac.clientID ac.scope 3600
        (idp.userClaims ac.userID (splitScope ac.scope)) with
    | error e => rw [ha] at h; exact absurd h (by simp)
    | ok accessToken =>
      rw [ha] at h
      dsimp only at h
      cases hr : jwt.createRefreshToken ac.userID ac.clientID ac.scope 604800 with
      | error e => rw [hr] at h; exact absurd h (by simp)
      | ok refreshToken =>
        rw [hr] at h
        dsimp only at h
        cases ho : (splitScope ac.scope).contains "openid" with
        | false =>
          rw [ho] at h
          simp only [Bool.false_eq_true, if_false, Except.ok.injEq, Prod.mk.injEq] at h
          obtain ⟨hresp, _⟩ := h
          rw [← hresp]
          simp
        | true =>
          rw [ho] at h
          simp only [if_true] at h
          cases hi : jwt.createIDToken ac.userID ac.clientID ac.nonce idp.now 3600
              (idp.userClaims ac.userID (splitScope ac.scope)) with
          | error e => rw [hi] at h; exact absurd h (by simp)
          | ok idToken =>
            rw [hi] at h
            simp only [Except.ok.injEq, Prod.mk.injEq] at h
            obtain ⟨hresp, _⟩ := h
            rw [← hresp]
            refine ⟨by simp, ?_⟩
            intro idt hidt
            simp only [Option.some.injEq] at hidt
            rw [← hidt]
  · intro jwt idp uid cid scope nonce resp idp1 h
    unfold oauth2IssueTokens at h
    dsimp only at h
    cases ha : jwt.createAccessToken uid cid scope 3600 (idp.userClaims uid (splitScope scope)) with
    | error e => rw [ha] at h; exact absurd h (by simp)
    | ok accessToken =>
      rw [ha] at h
      dsimp only at h
      cases hr : jwt.createRefreshToken uid cid scope 604800 with
      | error e => rw [hr] at h; exact absurd h (by simp)
      | ok refreshToken =>
        rw [hr] at h
        simp only [Except.ok.injEq, Prod.mk.injEq] at h
        obtain ⟨hresp, _⟩ := h
        rw [← hresp]

/-- The C4 witness response of a concrete OIDC issuance with `openid` scope. -/
def c4Resp : TokenResponse :=
  { accessToken := "AT.alice.public-app.openid", tokenType := "Bearer", expiresIn := 3600,
    refreshToken := some "RT.alice.public-app.openid",
    idToken := some "IDT.alice.public-app.", scope := "openid" }

/-- The refresh-token record stored by the C4 witness issuance. -/
def c4RefreshRec : RefreshRec :=
  { token := "RT.alice.public-app.openid", clientID := "public-app", userID := "alice",
    scope := "openid", expiresAt := 1700604900, revoked := false }

/-- The C4 witness post-issuance state. -/
def c4IdP1 : MockIdP :=
  { demoIdP with
    authCodes := [c1Code],
    refreshTokens := [c4RefreshRec] }

/-- C4 (witness): the amended claim applied to a concrete OIDC issuance. -/
theorem C4_witness :
    c4Resp.idToken.isSome = (splitScope c1Code.scope).contains "openid" :=
  (C4_id_token_iff_openid.1 demoJWT c1IdP c1Code c4Resp c4IdP1 (by decide)).1

/-! ## C5: client-credentials grant -/

/-- `validateClient` only succeeds on the client registered under the
requested id. -/
theorem validateClient_ok_id (idp : MockIdP) (i s : String) (c : Client)
    (h : idp.validateClient i s = Except.ok c) : c.id = i := by
  unfold MockIdP.validateClient at h
  cases hg : idp.getClient i with
  | none => rw [hg] at h; exact absurd h (by simp)
  | some c0 =>
    rw [hg] at h
    dsimp only at h
    have hid : (c0.id == i) = true := by
      have := List.find?_some hg
      simpa using this
    split_ifs at h <;>
      (simp only [Except.ok.injEq] at h; rw [← h]; exact eq_of_beq hid)

/-- C5: a client-credentials grant for an authenticated client authorized
for the grant type answers 200 with only an access token whose subject and
audience are the client id, carrying a `client_name` claim and no user
claims; no refresh token or ID token is issued and the IdP state is
untouched. -/
theorem C5_client_credentials_only_access_token
    (jwt : JWTService) (idp : MockIdP) (r : TokenReq) (client : Client) (tok : String)
    (hv : idp.validateClient (formThenBasic r).1 (formThenBasic r).2 = Except.ok client)
    (hg : client.grantTypes.contains "client_credentials" = true)
    (ht : jwt.createAccessToken (formThenBasic r).1 (formThenBasic r).1 r.scope 3600
      (some (insertClaim emptyClaims "client_name" (CVal.str client.name))) = Except.ok tok) :
    oauth2HandleClientCredsGrant jwt idp r =
      (HResp.tokens 200
        { accessToken := tok, tokenType := "Bearer", expiresIn := 3600,
          refreshToken := none, idToken := none, scope := r.scope }, idp)
    ∧ client.id = (formThenBasic r).1 := by
  refine ⟨?_, validateClient_ok_id idp (formThenBasic r).1 (formThenBasic r).2 client hv⟩
  unfold oauth2HandleClientCredsGrant
  dsimp only
  rw [hv]
  dsimp only
  rw [if_neg (by rw [hg]; simp)]
  rw [ht]

/-- The C5 witness request: the machine client authenticating with its
secret. -/
def c5Req : TokenReq :=
  { grantType := "client_credentials", code := "", redirectURI := "",
    clientID := "machine-client", clientSecret := "machine-secret", codeVerifier := "",
    refreshToken := "", scope := "api:read", token := "", tokenTypeHint := "",
    basicUser := "", basicPass := "" }

/-- C5 (witness): the concrete machine-client grant. -/
theorem C5_witness :
    oauth2HandleClientCredsGrant demoJWT demoIdP c5Req =
      (HResp.tokens 200
        { accessToken := "AT.machine-client.machine-client.api:read", tokenType := "Bearer",
          expiresIn := 3600, refreshToken := none, idToken := none, scope := "api:read" },
        demoIdP)
    ∧ machineClient.id = "machine-client" := by
  have h := C5_client_credentials_only_access_token demoJWT demoIdP c5Req machineClient
    "AT.machine-client.machine-client.api:read" (by decide) (by decide) (by decide)
  exact ⟨h.1, h.2⟩

/-! ## C6: claims assembly -/

/-- Looking up the just-inserted key. -/
theorem insertClaim_self (m : ClaimsMap) (k : String) (v : CVal) :
    insertClaim m k v k = some v := by
  simp [insertClaim]

/-- Inserting one key leaves every other key unchanged. -/
theorem insertClaim_ne (m : ClaimsMap) (k : String) (v : CVal) (q : String) (h : q ≠ k) :
    insertClaim m k v q = m q := by
  simp [insertClaim, h]

/-- Pointwise evaluation of one scope-switch step. -/
theorem scopeStep_eval (u : User) (m : ClaimsMap) (s K : String) :
    scopeStep u m s K =
      if s = "profile" then
        (if K = "updated_at" then some (CVal.int u.createdAt)
         else if K = "preferred_username" then some (CVal.str u.id)
         else if K = "name" then some (CVal.str u.name) else m K)
      else if s = "email" then
        (if K = "email_verified" then some (CVal.bool true)
         else if K = "email" then some (CVal.str u.email) else m K)
      else if s = "roles" then (if K = "roles" then some (CVal.strs u.roles) else m K)
      else m K := by
  by_cases h1 : s = "profile"
  · simp [scopeStep, insertClaim, h1]
  · by_cases h2 : s = "email"
    · simp [scopeStep, insertClaim, h1, h2]
    · by_cases h3 : s = "roles"
      · simp [scopeStep, insertClaim, h1, h2, h3]
      · simp [scopeStep, insertClaim, h1, h2, h3]

/-- Folding the scope switch: a key written exactly by scope `S` with value
`v` ends up mapped to `v` iff `S` occurs in the scopes, and otherwise keeps
its incoming value. -/
theorem foldl_scopeStep_writer (u : User) (K S : String) (v : CVal)
    (hW : ∀ m : ClaimsMap, scopeStep u m S K = some v)
    (hO : ∀ (m : ClaimsMap) (s : String), s ≠ S → scopeStep u m s K = m K) :
    ∀ (scopes : List String) (m : ClaimsMap),
      (scopes.foldl (scopeStep u) m) K = if S ∈ scopes then some v else m K := by
  intro scopes
  induction scopes with
  | nil => intro m; simp
  | cons s rest ih =>
    intro m
    rw [List.foldl_cons]
    by_cases hs : s = S
    · subst hs
      rw [ih, if_pos (List.mem_cons_self s rest)]
      by_cases hr : s ∈ rest
      · rw [if_pos hr]
      · rw [if_neg hr, hW]
    · rw [ih, hO m s hs]
      by_cases hr : S ∈ rest
      · rw [if_pos hr, if_pos (List.mem_cons_of_mem s hr)]
      · rw [if_neg hr, if_neg (by
          intro hmem
          rcases List.mem_cons.mp hmem with h1 | h2
          · exact hs h1.symm
          · exact hr h2)]

/-- Folding the scope switch leaves a key no scope writes unchanged. -/
theorem foldl_scopeStep_frame (u : User) (K : String)
    (hO : ∀ (m : ClaimsMap) (s : String), scopeStep u m s K = m K) :
    ∀ (scopes : List String) (m : ClaimsMap), (scopes.foldl (scopeStep u) m) K = m K := by
  intro scopes
  induction scopes with
  | nil => intro m; rfl
  | cons s rest ih => intro m; rw [List.foldl_cons, ih, hO]

/-- The custom-claims merge leaves absent keys unchanged. -/
theorem customFold_not_mem :
    ∀ (l : List (String × CVal)) (k : String), k ∉ l.map Prod.fst →
      ∀ m, (l.foldl (fun m kv => insertClaim m kv.1 kv.2) m) k = m k := by
  intro l
  induction l with
  | nil => intro k _ m; rfl
  | cons kv rest ih =>
    intro k h m
    simp only [List.map_cons, List.mem_cons, not_or] at h
    obtain ⟨h1, h2⟩ := h
    rw [List.foldl_cons, ih k h2]
    exact insertClaim_ne m kv.1 kv.2 k h1

/-- The custom-claims merge maps every merged key (keys are unique, as in a
Go map) to its custom value. -/
theorem customFold_mem :
    ∀ (l : List (String × CVal)), (l.map Prod.fst).Nodup →
      ∀ (k : String) (v : CVal), (k, v) ∈ l →
        ∀ m, (l.foldl (fun m kv => insertClaim m kv.1 kv.2) m) k = some v := by
  intro l
  induction l with
  | nil => intro _ k v h; simp at h
  | cons kv rest ih =>
    intro hnd k v h m
    simp only [List.map_cons, List.nodup_cons] at hnd
    obtain ⟨hni, hnd2⟩ := hnd
    rw [List.foldl_cons]
    rcases List.mem_cons.mp h with h1 | h2
    · subst h1
      rw [customFold_not_mem rest k (by simpa using hni)]
      exact insertClaim_self m k v
    · exact ih hnd2 k v h2 _

/-- C6 (amended): for every existing user, `UserClaims` maps `sub` to the
user id unless a custom claim overrides it; for each key not overridden by
a custom claim, name/preferred_username/updated_at are present iff
`profile` is in the scopes, email and email_verified=true iff `email` is,
and the role list iff `roles` is; and every custom claim is mapped to its
custom value, overriding any standard claim with the same key. -/
theorem C6_userClaims_characterization
    (idp : MockIdP) (userID : String) (scopes : List String) (user : User) (m : ClaimsMap)
    (hu : idp.getUser userID = some user)
    (hm : idp.userClaims userID scopes = some m)
    (hnd : (user.claims.map Prod.fst).Nodup) :
    (("sub" ∉ user.claims.map Prod.fst) → m "sub" = some (CVal.str user.id))
    ∧ (("name" ∉ user.claims.map Prod.fst) →
        m "name" = if "profile" ∈ scopes then some (CVal.str user.name) else none)
    ∧ (("preferred_username" ∉ user.claims.map Prod.fst) →
        m "preferred_username" = if "profile" ∈ scopes then some (CVal.str user.id) else none)
    ∧ (("updated_at" ∉ user.claims.map Prod.fst) →
        m "updated_at" = if "profile" ∈ scopes then some (CVal.int user.createdAt) else none)
    ∧ (("email" ∉ user.claims.map Prod.fst) →
        m "email" = if "email" ∈ scopes then some (CVal.str user.email) else none)
    ∧ (("email_verified" ∉ user.claims.map Prod.fst) →
        m "email_verified" = if "email" ∈ scopes then some (CVal.bool true) else none)
    ∧ (("roles" ∉ user.claims.map Prod.fst) →
        m "roles" = if "roles" ∈ scopes then some (CVal.strs user.roles) else none)
    ∧ (∀ k v, (k, v) ∈ user.claims → m k = some v) := by
  unfold MockIdP.userClaims at hm
  rw [hu] at hm
  dsimp only at hm
  simp only [Option.some.injEq] at hm
  subst hm
  refine ⟨?_, ?_, ?_, ?_, ?_, ?_, ?_, ?_⟩
  · intro hn
    rw [customFold_not_mem user.claims "sub" hn]
    rw [foldl_scopeStep_frame user "sub"
      (fun m s => by rw [scopeStep_eval]; split_ifs <;> simp_all)]
    exact insertClaim_self _ _ _
  · intro hn
    rw [customFold_not_mem user.claims "name" hn]
    rw [foldl_scopeStep_writer user "name" "profile" (CVal.str user.name)
      (fun m => by rw [scopeStep_eval]; simp)
      (fun m s hs => by rw [scopeStep_eval]; simp [hs]) scopes]
    simp [insertClaim, emptyClaims]
  · intro hn
    rw [customFold_not_mem user.claims "preferred_username" hn]
    rw [foldl_scopeStep_writer user "preferred_username" "profile" (CVal.str user.id)
      (fun m => by rw [scopeStep_eval]; simp)
      (fun m s hs => by rw [scopeStep_eval]; simp [hs]) scopes]
    simp [insertClaim, emptyClaims]
  · intro hn
    rw [customFold_not_mem user.claims "updated_at" hn]
    rw [foldl_scopeStep_writer user "updated_at" "profile" (CVal.int user.createdAt)
      (fun m => by rw [scopeStep_eval]; simp)
      (fun m s hs => by rw [scopeStep_eval]; simp [hs]) scopes]
    simp [insertClaim, emptyClaims]
  · intro hn
    rw [customFold_not_mem user.claims "email" hn]
    rw [foldl_scopeStep_writer user "email" "email" (CVal.str user.email)
      (fun m => by rw [scopeStep_eval]; simp)
      (fun m s hs => by rw [scopeStep_eval]; simp [hs]) scopes]
    simp [insertClaim, emptyClaims]
  · intro hn
    rw [customFold_not_mem user.claims "email_verified" hn]
    rw [foldl_scopeStep_writer user "email_verified" "email" (CVal.bool true)
      (fun m => by rw [scopeStep_eval]; simp)
      (fun m s hs => by rw [scopeStep_eval]; simp [hs]) scopes]
    simp [insertClaim, emptyClaims]
  · intro hn
    rw [customFold_not_mem user.claims "roles" hn]
    rw [foldl_scopeStep_writer user "roles" "roles" (CVal.strs user.roles)
      (fun m => by rw [scopeStep_eval]; simp)
      (fun m s hs => by rw [scopeStep_eval]; simp [hs]) scopes]
    simp [insertClaim, emptyClaims]
  · intro k v hkv
    exact customFold_mem user.claims hnd k v hkv _

/-- A user whose custom claims override the standard `sub` claim. -/
def evilUser : User :=
  { id := "alice", email := "alice@example.com", password := "pw", name := "Alice",
    roles := [], claims := [("sub", CVal.str "evil")], createdAt := 0 }

/-- A demo IdP state containing only `evilUser`. -/
def c6IdP : MockIdP :=
  { users := [evilUser], clients := [], authCodes := [], refreshTokens := [],
    now := 0, codeSeq := 0 }

/-- C6 (counterexample): `UserClaims` does not always map `sub` to the user
id: a custom claim with key `sub` is merged last and overrides it, so for
this existing user the claims map sends `sub` to `"evil"`, not to the user
id `"alice"`. -/
theorem C6_sub_override_counterexample :
    (match c6IdP.userClaims "alice" [] with
     | some m => m "sub" = some (CVal.str "evil") ∧ m "sub" ≠ some (CVal.str "alice")
     | none => False) := by
  exact ⟨rfl, by decide⟩

/-- C6 (witness): the characterization applied to alice (no custom claims)
with the `profile` scope yields her name claim. -/
theorem C6_witness :
    ((demoIdP.userClaims "alice" ["profile"]).getD emptyClaims) "name" =
      some (CVal.str "Alice") := by
  have h := C6_userClaims_characterization demoIdP "alice" ["profile"] alice
    ((demoIdP.userClaims "alice" ["profile"]).getD emptyClaims) rfl rfl (by decide)
  exact (h.2.1 (by decide)).trans (if_pos (by decide))

/-! ## C7: introspection -/

/-- C7: when the requesting client authenticates, the introspection
endpoint answers HTTP 200 with the `{active:false}` body whenever the
signing service rejects the presented token (unknown, invalid, expired or
revoked), never an error status; and for a valid token it answers HTTP 200
with `active:true`, token_type "Bearer", and the token's scope, sub,
username, client_id, exp, iat, iss and jti claims. -/
theorem C7_introspection (jwt : JWTService) (idp : MockIdP) (r : TokenReq) (c : Client)
    (hc : idp.validateClient (basicThenForm r).1 (basicThenForm r).2 = Except.ok c) :
    (∀ e, jwt.validateToken r.token = Except.error e →
        oauth2HandleIntrospect jwt idp r = (HResp.intro 200 inactiveIntro, idp))
    ∧ (∀ claims, jwt.validateToken r.token = Except.ok claims →
        oauth2HandleIntrospect jwt idp r = (HResp.intro 200 (buildIntro claims), idp)
        ∧ (buildIntro claims).active = true
        ∧ (buildIntro claims).tokenType = "Bearer"
        ∧ (∀ s, claims "scope" = some (CVal.str s) → (buildIntro claims).scope = s)
        ∧ (∀ s, claims "sub" = some (CVal.str s) →
            (buildIntro claims).sub = s ∧ (buildIntro claims).username = s)
        ∧ (∀ s, claims "aud" = some (CVal.str s) → (buildIntro claims).clientID = s)
        ∧ (∀ n, claims "exp" = some (CVal.int n) → (buildIntro claims).exp = n)
        ∧ (∀ n, claims "iat" = some (CVal.int n) → (buildIntro claims).iat = n)
        ∧ (∀ s, claims "iss" = some (CVal.str s) → (buildIntro claims).iss = s)
        ∧ (∀ s, claims "jti" = some (CVal.str s) → (buildIntro claims).jti = s)) := by
  constructor
  · intro e he
    unfold oauth2HandleIntrospect
    dsimp only
    rw [hc]
    dsimp only
    rw [he]
  · intro claims hv
    refine ⟨?_, rfl, rfl, ?_, ?_, ?_, ?_, ?_, ?_, ?_⟩
    · unfold oauth2HandleIntrospect
      dsimp only
      rw [hc]
      dsimp only
      rw [hv]
    · intro s hs; simp [buildIntro, hs]
    · intro s hs; exact ⟨by simp [buildIntro, hs], by simp [buildIntro, hs]⟩
    · intro s hs; simp [buildIntro, hs]
    · intro n hn; simp [buildIntro, hn]
    · intro n hn; simp [buildIntro, hn]
    · intro s hs; simp [buildIntro, hs]
    · intro s hs; simp [buildIntro, hs]

/-- The C7 witness request: client via Basic auth, presenting the demo
service's one valid token. -/
def c7Req : TokenReq :=
  { grantType := "", code := "", redirectURI := "", clientID := "", clientSecret := "",
    codeVerifier := "", refreshToken := "", scope := "", token := "valid-token",
    tokenTypeHint := "", basicUser := "demo-app", basicPass := "demo-secret" }

/-- C7 (witness): the concrete introspection of a valid token. -/
theorem C7_witness :
    oauth2HandleIntrospect demoJWT demoIdP c7Req =
      (HResp.intro 200 (buildIntro demoTokenClaims), demoIdP) := by
  have h := C7_introspection demoJWT demoIdP c7Req demoClient (by rfl)
  exact (h.2 demoTokenClaims rfl).1

/-! ## C8: revocation -/

/-- A revocation request from an unknown client. -/
def c8Req : TokenReq :=
  { grantType := "", code := "", redirectURI := "", clientID := "ghost", clientSecret := "",
    codeVerifier := "", refreshToken := "", scope := "", token := "sometoken",
    tokenTypeHint := "", basicUser := "", basicPass := "" }

/-- C8 (counterexample): not every revocation request gets HTTP 200: the
handler authenticates the client first, and a request naming an unknown
client is answered with a 400 `invalid_client` error, not 200. -/
theorem C8_unknown_client_counterexample :
    (oauth2HandleRevoke demoIdP c8Req).1 = HResp.err 400 "invalid_client" "Unknown client" ""
    ∧ (oauth2HandleRevoke demoIdP c8Req).1 ≠ HResp.ok200 := by
  refine ⟨by decide, by decide⟩

/-- When the resolved client is public or its secret validates, the
authentication gate of the handlers does not fire. -/
theorem authGateFalse (b : Bool) {ε α : Type} (x : Except ε α)
    (h : (b || x.succeeded) = true) : (!b && !x.succeeded) = false := by
  cases b <;> simp_all

/-- C8 (amended): for every revocation request whose client resolves and
authenticates (public, or with a validating secret), the endpoint returns
a bare HTTP 200 regardless of whether the presented token is valid,
already revoked, or unknown, and regardless of the type hint. -/
theorem C8_revoke_always_200 (idp : MockIdP) (r : TokenReq) (client : Client)
    (hg : idp.getClient (basicThenForm r).1 = some client)
    (ha : (client.public ||
      (idp.validateClient (basicThenForm r).1 (basicThenForm r).2).succeeded) = true) :
    (oauth2HandleRevoke idp r).1 = HResp.ok200 := by
  unfold oauth2HandleRevoke
  dsimp only
  rw [hg]
  dsimp only
  rw [if_neg (by rw [authGateFalse _ _ ha]; exact Bool.false_ne_true)]

/-- The C8 witness request: the public client revoking an unknown token. -/
def c8OkReq : TokenReq :=
  { grantType := "", code := "", redirectURI := "", clientID := "public-app",
    clientSecret := "", codeVerifier := "", refreshToken := "", scope := "",
    token := "unknown-token", tokenTypeHint := "", basicUser := "", basicPass := "" }

/-- C8 (witness): revoking an unknown token still yields 200. -/
theorem C8_witness : (oauth2HandleRevoke demoIdP c8OkReq).1 = HResp.ok200 :=
  C8_revoke_always_200 demoIdP c8OkReq publicClient (by rfl) (by rfl)

/-! ## C9: managed plugin initialization -/

/-- C9: `Initialize` runs the pre-init hook, then the plugin's own
initialization, then the ready hook, in that order (witnessed by the step
trace); it returns a non-nil error iff the pre-init hook or the plugin
initialization fails; on a pre-init failure it returns the wrapped cause,
records state `Error` with the cause, and never reaches the plugin
initialization; on a plugin-initialization failure it propagates the cause
and records `Error` with it (firing only the error hook, no retry); and on
success the final state is `Ready`. -/
theorem C9_lifecycle_init (p : PluginDef) (hooks : Option PluginHooks) (lm : LifecycleMgr) :
    ((mpInit p hooks lm).1 = none ↔
      ((∀ f, hooks.bind (fun h => h.onInit) = some f → f p.id = none) ∧ p.initErr = none))
    ∧ ((mpInit p hooks lm).1 = none →
        (mpInit p hooks lm).2.1.states p.id = some PState.readyS
        ∧ (mpInit p hooks lm).2.2 =
            [LifeEvent.evInitializing]
            ++ (if (hooks.bind (fun h => h.onInit)).isSome then [LifeEvent.evPreInitHook] else [])
            ++ [LifeEvent.evPluginInit]
            ++ (if (hooks.map (fun h => h.onReady)).getD false then [LifeEvent.evReadyHook]
                else []))
    ∧ (∀ f e, hooks.bind (fun h => h.onInit) = some f → f p.id = some e →
        (mpInit p hooks lm).1 = some ("pre-init hook failed: " ++ e)
        ∧ (mpInit p hooks lm).2.1.states p.id = some PState.errorS
        ∧ (mpInit p hooks lm).2.1.errors p.id = some e
        ∧ (mpInit p hooks lm).2.2 = [LifeEvent.evInitializing, LifeEvent.evPreInitHook])
    ∧ (∀ e, p.initErr = some e →
        (∀ f, hooks.bind (fun h => h.onInit) = some f → f p.id = none) →
        (mpInit p hooks lm).1 = some e
        ∧ (mpInit p hooks lm).2.1.states p.id = some PState.errorS
        ∧ (mpInit p hooks lm).2.1.errors p.id = some e
        ∧ (mpInit p hooks lm).2.2 =
            [LifeEvent.evInitializing]
            ++ (if (hooks.bind (fun h => h.onInit)).isSome then [LifeEvent.evPreInitHook] else [])
            ++ [LifeEvent.evPluginInit]
            ++ (if (hooks.map (fun h => h.onError)).getD false then [LifeEvent.evErrorHook]
                else [])) := by
  cases hpre : hooks.bind (fun h => h.onInit) with
  | none =>
    cases hi : p.initErr with
    | none =>
      refine ⟨by simp [mpInit, mpInitBody, hpre, hi], ?_, by simp [hpre], ?_⟩
      · intro _
        constructor
        · simp [mpInit, mpInitBody, hpre, hi, setState]
        · simp [mpInit, mpInitBody, hpre, hi]
      · intro e he
        exact Option.noConfusion he
    | some e0 =>
      refine ⟨by simp [mpInit, mpInitBody, hpre, hi], ?_, by simp [hpre], ?_⟩
      · intro hnone
        rw [show (mpInit p hooks lm).1 = some e0 by simp [mpInit, mpInitBody, hpre, hi]] at hnone
        exact Option.noConfusion hnone
      · intro e he _
        simp only [Option.some.injEq] at he
        subst he
        refine ⟨by simp [mpInit, mpInitBody, hpre, hi], ?_, ?_, by simp [mpInit, mpInitBody, hpre, hi]⟩
        · simp [mpInit, mpInitBody, hpre, hi, setPluginError]
        · simp [mpInit, mpInitBody, hpre, hi, setPluginError]
  | some f =>
    cases hf : f p.id with
    | none =>
      cases hi : p.initErr with
      | none =>
        refine ⟨by simp [mpInit, mpInitBody, hpre, hf, hi], ?_, ?_, ?_⟩
        · intro _
          constructor
          · simp [mpInit, mpInitBody, hpre, hf, hi, setState]
          · simp [mpInit, mpInitBody, hpre, hf, hi]
        · intro f2 e hsome he
          simp only [Option.some.injEq] at hsome
          subst hsome
          rw [hf] at he
          exact Option.noConfusion he
        · intro e he _
          exact Option.noConfusion he
      | some e0 =>
        refine ⟨by simp [mpInit, mpInitBody, hpre, hf, hi], ?_, ?_, ?_⟩
        · intro hnone
          rw [show (mpInit p hooks lm).1 = some e0 by
            simp [mpInit, mpInitBody, hpre, hf, hi]] at hnone
          exact Option.noConfusion hnone
        · intro f2 e hsome he
          simp only [Option.some.injEq] at hsome
          subst hsome
          rw [hf] at he
          exact Option.noConfusion he
        · intro e he _
          simp only [Option.some.injEq] at he
          subst he
          refine ⟨by simp [mpInit, mpInitBody, hpre, hf, hi], ?_, ?_,
            by simp [mpInit, mpInitBody, hpre, hf, hi]⟩
          · simp [mpInit, mpInitBody, hpre, hf, hi, setPluginError]
          · simp [mpInit, mpInitBody, hpre, hf, hi, setPluginError]
    | some e0 =>
      refine ⟨?_, ?_, ?_, ?_⟩
      · constructor
        · intro hnone
          rw [show (mpInit p hooks lm).1 = some ("pre-init hook failed: " ++ e0) by
            simp [mpInit, hpre, hf]] at hnone
          exact Option.noConfusion hnone
        · intro ⟨hall, _⟩
          have := hall f rfl
          rw [hf] at this
          exact Option.noConfusion this
      · intro hnone
        rw [show (mpInit p hooks lm).1 = some ("pre-init hook failed: " ++ e0) by
          simp [mpInit, hpre, hf]] at hnone
        exact Option.noConfusion hnone
      · intro f2 e hsome he
        simp only [Option.some.injEq] at hsome
        subst hsome
        rw [hf] at he
        simp only [Option.some.injEq] at he
        subst he
        refine ⟨by simp [mpInit, hpre, hf], ?_, ?_, by simp [mpInit, hpre, hf]⟩
        · simp [mpInit, hpre, hf, setPluginError]
        · simp [mpInit, hpre, hf, setPluginError]
      · intro e _ hall
        have := hall f rfl
        rw [hf] at this
        exact Option.noConfusion this

/-- A failing pre-init hook for the C9 witness. -/
def c9Hooks : PluginHooks :=
  { onInit := some (fun _ => some "boom"), onReady := true, onShutdown := none,
    onError := false }

/-- The demo plugin for the C9 witness. -/
def c9Plugin : PluginDef := { id := "oauth2", initErr := none }

/-- C9 (witness): a concrete failing pre-init hook yields the wrapped
error, the `Error` state with recorded cause, and a trace that never
reaches the plugin's own initialization. -/
theorem C9_witness :
    (mpInit c9Plugin (some c9Hooks) lmEmpty).1 = some "pre-init hook failed: boom"
    ∧ (mpInit c9Plugin (some c9Hooks) lmEmpty).2.1.states "oauth2" = some PState.errorS
    ∧ (mpInit c9Plugin (some c9Hooks) lmEmpty).2.1.errors "oauth2" = some "boom"
    ∧ (mpInit c9Plugin (some c9Hooks) lmEmpty).2.2 =
        [LifeEvent.evInitializing, LifeEvent.evPreInitHook] :=
  (C9_lifecycle_init c9Plugin (some c9Hooks) lmEmpty).2.2.1 (fun _ => some "boom") "boom" rfl rfl

/-! ## C10: refresh-token rotation leaves the old record untouched -/

/-- Storing a fresh refresh token does not affect lookups of any other
token value. -/
theorem storeRefresh_find_other (idp : MockIdP) (newTok cid uid scope : String) (ex : Int)
    (t : String) (hne : t ≠ newTok) :
    ((idp.storeRefreshToken newTok cid uid scope ex).refreshTokens.find?
      (fun x => x.token == t)) = idp.refreshTokens.find? (fun x => x.token == t) := by
  unfold MockIdP.storeRefreshToken
  dsimp only
  rw [List.find?_cons_of_neg _ (by simp [Ne.symm hne])]

/-- Storing a fresh refresh token preserves the validation of any other
stored token. -/
theorem storeRefresh_validate_old (idp : MockIdP) (newTok cid2 uid scope : String) (ex : Int)
    (tok cid : String) (rt : RefreshRec)
    (hval : idp.validateRefreshToken tok cid = Except.ok rt)
    (hne : tok ≠ newTok) :
    (idp.storeRefreshToken newTok cid2 uid scope ex).validateRefreshToken tok cid =
      Except.ok rt := by
  unfold MockIdP.validateRefreshToken at hval ⊢
  rw [storeRefresh_find_other idp newTok cid2 uid scope ex tok hne]
  exact hval

/-- C10: in both the OAuth2 and the OIDC refresh-token grant, a successful
grant stores exactly one new refresh-token record on top of the existing
store and performs no revocation or mutation of any existing record; in
particular (whenever the freshly created token value differs from the
presented one) the presented token's stored entry is unchanged and it still
validates afterwards. -/
theorem C10_refresh_rotation_frame :
    (∀ (jwt : JWTService) (idp : MockIdP) (r : TokenReq) (client : Client) (rt : RefreshRec)
        (tok newTok : String),
      idp.getClient (formThenBasic r).1 = some client →
      (client.public || (idp.validateClient (formThenBasic r).1
        (formThenBasic r).2).succeeded) = true →
      idp.validateRefreshToken r.refreshToken (formThenBasic r).1 = Except.ok rt →
      jwt.createAccessToken rt.userID (formThenBasic r).1
        (if r.scope = "" then rt.scope else r.scope) 3600
        (idp.userClaims rt.userID (splitScope (if r.scope = "" then rt.scope else r.scope))) =
        Except.ok tok →
      jwt.createRefreshToken rt.userID (formThenBasic r).1
        (if r.scope = "" then rt.scope else r.scope) 604800 = Except.ok newTok →
      (oauth2HandleRefreshGrant jwt idp r).2.refreshTokens =
        { token := newTok, clientID := (formThenBasic r).1, userID := rt.userID,
          scope := if r.scope = "" then rt.scope else r.scope,
          expiresAt := idp.now + 604800, revoked := false } :: idp.refreshTokens
      ∧ (∀ t, t ≠ newTok →
          ((oauth2HandleRefreshGrant jwt idp r).2.refreshTokens.find? (fun x => x.token == t)) =
            idp.refreshTokens.find? (fun x => x.token == t))
      ∧ (r.refreshToken ≠ newTok →
          (oauth2HandleRefreshGrant jwt idp r).2.validateRefreshToken r.refreshToken
            (formThenBasic r).1 = Except.ok rt))
    ∧ (∀ (jwt : JWTService) (idp : MockIdP) (r : TokenReq) (client : Client) (rt : RefreshRec)
        (tok newTok : String),
      idp.getClient (formThenBasic r).1 = some client →
      (client.public || (idp.validateClient (formThenBasic r).1
        (formThenBasic r).2).succeeded) = true →
      idp.validateRefreshToken r.refreshToken (formThenBasic r).1 = Except.ok rt →
      jwt.createAccessToken rt.userID (formThenBasic r).1
        (if r.scope = "" then rt.scope else r.scope) 3600
        (idp.userClaims rt.userID (splitScope (if r.scope = "" then rt.scope else r.scope))) =
        Except.ok tok →
      jwt.createRefreshToken rt.userID (formThenBasic r).1
        (if r.scope = "" then rt.scope else r.scope) 604800 = Except.ok newTok →
      (oidcHandleRefreshGrant jwt idp r).2.refreshTokens =
        { token := newTok, clientID := (formThenBasic r).1, userID := rt.userID,
          scope := if r.scope = "" then rt.scope else r.scope,
          expiresAt := idp.now + 604800, revoked := false } :: idp.refreshTokens
      ∧ (∀ t, t ≠ newTok →
          ((oidcHandleRefreshGrant jwt idp r).2.refreshTokens.find? (fun x => x.token == t)) =
            idp.refreshTokens.find? (fun x => x.token == t))
      ∧ (r.refreshToken ≠ newTok →
          (oidcHandleRefreshGrant jwt idp r).2.validateRefreshToken r.refreshToken
            (formThenBasic r).1 = Except.ok rt)) := by
  constructor
  · intro jwt idp r client rt tok newTok hg ha hval hat hrt
    have hiss : oauth2IssueTokens jwt idp rt.userID (formThenBasic r).1
        (if r.scope = "" then rt.scope else r.scope) "" =
        Except.ok (⟨tok, "Bearer", 3600, some newTok, none,
            if r.scope = "" then rt.scope else r.scope⟩,
          idp.storeRefreshToken newTok (formThenBasic r).1 rt.userID
            (if r.scope = "" then rt.scope else r.scope) (idp.now + 604800)) := by
      unfold oauth2IssueTokens
      dsimp only
      rw [hat]
      dsimp only
      rw [hrt]
    have hstate : (oauth2HandleRefreshGrant jwt idp r).2 =
        idp.storeRefreshToken newTok (formThenBasic r).1 rt.userID
          (if r.scope = "" then rt.scope else r.scope) (idp.now + 604800) := by
      unfold oauth2HandleRefreshGrant
      dsimp only
      rw [hg]
      dsimp only
      rw [if_neg (by rw [authGateFalse _ _ ha]; exact Bool.false_ne_true)]
      rw [hval]
      dsimp only
      rw [hiss]
    rw [hstate]
    refine ⟨rfl, ?_, ?_⟩
    · intro t hne
      exact storeRefresh_find_other idp newTok (formThenBasic r).1 rt.userID _ _ t hne
    · intro hne
      exact storeRefresh_validate_old idp newTok (formThenBasic r).1 rt.userID _ _
        r.refreshToken (formThenBasic r).1 rt hval hne
  · intro jwt idp r client rt tok newTok hg ha hval hat hrt
    have hstate : (oidcHandleRefreshGrant jwt idp r).2 =
        idp.storeRefreshToken newTok (formThenBasic r).1 rt.userID
          (if r.scope = "" then rt.scope else r.scope) (idp.now + 604800) := by
      unfold oidcHandleRefreshGrant
      dsimp only
      rw [hg]
      dsimp only
      rw [if_neg (by rw [authGateFalse _ _ ha]; exact Bool.false_ne_true)]
      rw [hval]
      dsimp only
      rw [hat]
      dsimp only
      rw [hrt]
      dsimp only
      cases (splitScope (if r.scope = "" then rt.scope else r.scope)).contains "openid"
      · rfl
      · cases jwt.createIDToken rt.userID (formThenBasic r).1 "" idp.now 3600
          (idp.userClaims rt.userID (splitScope (if r.scope = "" then rt.scope else r.scope)))
        · rfl
        · rfl
    rw [hstate]
    refine ⟨rfl, ?_, ?_⟩
    · intro t hne
      exact storeRefresh_find_other idp newTok (formThenBasic r).1 rt.userID _ _ t hne
    · intro hne
      exact storeRefresh_validate_old idp newTok (formThenBasic r).1 rt.userID _ _
        r.refreshToken (formThenBasic r).1 rt hval hne

/-- The stored old refresh token for the C10 witness. -/
def c10OldRec : RefreshRec :=
  { token := "RT-old", clientID := "public-app", userID := "alice", scope := "profile",
    expiresAt := 1800000000, revoked := false }

/-- The demo IdP state holding one old refresh token. -/
def c10IdP : MockIdP := { demoIdP with refreshTokens := [c10OldRec] }

/-- The C10 witness refresh-grant request. -/
def c10Req : TokenReq :=
  { grantType := "refresh_token", code := "", redirectURI := "", clientID := "public-app",
    clientSecret := "", codeVerifier := "", refreshToken := "RT-old", scope := "",
    token := "", tokenTypeHint := "", basicUser := "", basicPass := "" }

/-- C10 (witness): a concrete rotation stores the new token and leaves the
old record both present and still valid. -/
theorem C10_witness :
    (oauth2HandleRefreshGrant demoJWT c10IdP c10Req).2.refreshTokens =
      { token := "RT.alice.public-app.profile", clientID := (formThenBasic c10Req).1,
        userID := c10OldRec.userID,
        scope := if c10Req.scope = "" then c10OldRec.scope else c10Req.scope,
        expiresAt := c10IdP.now + 604800, revoked := false } :: c10IdP.refreshTokens
    ∧ (oauth2HandleRefreshGrant demoJWT c10IdP c10Req).2.validateRefreshToken "RT-old"
        (formThenBasic c10Req).1 = Except.ok c10OldRec := by
  have h := C10_refresh_rotation_frame.1 demoJWT c10IdP c10Req publicClient c10OldRec
    "AT.alice.public-app.profile" "RT.alice.public-app.profile"
    (by rfl) (by rfl) (by rfl) (by rfl) (by rfl)
  exact ⟨h.1, h.2.2 (by decide)⟩
